import Mathlib

/-!
Verification development for the BankGuard behavioral-biometrics pipeline.

The definitions below are a shallow embedding of the repository's core:

* `FraudDetectionService` from `server/src/services/fraudDetection.ts`
  (risk thresholds, `determineSecurityResponse`, `selectAuthenticationMethod`,
  `validateMetrics`, `analyzeWithRAG`, `processBehavioralMetrics`);
* the on-device mirror `determineSecurityResponse` from
  `android/.../MainActivity.kt`;
* `BehavioralBiometricsCollector` (the unnamed Kotlin source file): the four
  signal buffers with their ingestion handlers, the time-based purge
  `clearOldData`, and the per-category feature extractors.

Modelling conventions:
* JavaScript/Kotlin floating-point numbers are modelled as rationals (`ℚ`);
  division by zero yields `0` in `ℚ` where a float would give `±Inf`/`NaN` —
  every division in the source that a theorem below depends on is guarded by
  the source itself, so no statement relies on this convention.
* `Date.now()` / `System.currentTimeMillis()` is passed in explicitly as a
  `now : ℤ` parameter (milliseconds).
* Real-valued operations that have no exact rational counterpart
  (`sqrt`, `ln`, Java's `String.hashCode`) are abstracted as a `RealOps`
  record of arbitrary functions; every theorem quantifies over them.
* Kotlin's `Collections.synchronizedList` buffers are modelled as plain
  lists: each handler call is one atomic step, matching the per-call mutual
  exclusion the wrapper provides.
-/

namespace BankGuard

/-- Response type values of `SecurityResponse.type` in `fraudDetection.ts` and the
`SecurityResponse.Type` enum of the Android app (same four variants). -/
inductive ResponseType where
  | silent_faceid
  | otp_challenge
  | session_termination
  | account_lock
  deriving DecidableEq, Repr

/-- Severity values of `SecurityResponse` (and of the Android `Severity` enum). -/
inductive Severity where
  | low
  | medium
  | high
  | critical
  deriving DecidableEq, Repr

/-- The `SecurityResponse` interface of `fraudDetection.ts`; `expiresAt` is the
optional `Date`, kept as epoch milliseconds. -/
structure SecurityResponse where
  type : ResponseType
  severity : Severity
  message : String
  requiresUserAction : Bool
  expiresAt : Option ℤ
  deriving DecidableEq, Repr

/-- The `BehavioralMetrics` interface of `fraudDetection.ts`. -/
structure BehavioralMetrics where
  userId : String
  sessionId : String
  timestamp : ℤ
  typingRhythm : List ℚ
  touchDynamics : List ℚ
  deviceOrientation : List ℚ
  navigationPattern : List ℚ
  riskScore : ℚ
  anomalyFlags : List String
  confidenceLevel : ℚ
  deviceFingerprint : String
  locationHash : Option String
  timeOfDay : ℤ
  dayOfWeek : ℤ
  deriving DecidableEq, Repr

/-- Threshold `RISK_THRESHOLDS.LOW` of `FraudDetectionService`. -/
def RISK_LOW : ℚ := 3 / 10

/-- Threshold `RISK_THRESHOLDS.MEDIUM` of `FraudDetectionService`. -/
def RISK_MEDIUM : ℚ := 6 / 10

/-- Threshold `RISK_THRESHOLDS.HIGH` of `FraudDetectionService`. -/
def RISK_HIGH : ℚ := 8 / 10

/-- Threshold `RISK_THRESHOLDS.CRITICAL` of `FraudDetectionService`. -/
def RISK_CRITICAL : ℚ := 95 / 100

def lockMessage : String :=
  "Suspicious activity detected. Account temporarily locked for security."

def terminationMessage : String :=
  "Session terminated due to unusual activity patterns."

def verificationMessage : String :=
  "Additional verification required for security."

def backgroundCheckMessage : String :=
  "Background security check in progress."

/-- Embeds `FraudDetectionService.selectAuthenticationMethod`. -/
def selectAuthenticationMethod (anomalyFlags : List String) : ResponseType :=
  if anomalyFlags.contains "device_anomaly" || anomalyFlags.contains "location_anomaly" then
    ResponseType.silent_faceid
  else if anomalyFlags.contains "typing_anomaly" || anomalyFlags.contains "navigation_anomaly" then
    ResponseType.otp_challenge
  else
    ResponseType.silent_faceid

/-- Embeds `FraudDetectionService.determineSecurityResponse`.  `now` is the value of
`Date.now()` when the tick is processed; the source builds the step-up expiry
as `new Date(Date.now() + 5 * 60 * 1000)`. -/
def determineSecurityResponse (now : ℤ) (m : BehavioralMetrics) : Option SecurityResponse :=
  if m.riskScore < RISK_LOW then
    none
  else if RISK_CRITICAL ≤ m.riskScore then
    some ⟨ResponseType.account_lock, Severity.critical, lockMessage, true, none⟩
  else if RISK_HIGH ≤ m.riskScore then
    some ⟨ResponseType.session_termination, Severity.high, terminationMessage, true, none⟩
  else if RISK_MEDIUM ≤ m.riskScore then
    some ⟨selectAuthenticationMethod m.anomalyFlags, Severity.medium, verificationMessage,
      true, some (now + 5 * 60 * 1000)⟩
  else
    some ⟨ResponseType.silent_faceid, Severity.low, backgroundCheckMessage, false, none⟩

/-- Embeds `FraudDetectionService.validateMetrics`.  JavaScript truthiness of the
required fields: an empty string and the number `0` are falsy. -/
def validateMetrics (m : BehavioralMetrics) : Bool :=
  if m.userId = "" || m.sessionId = "" || m.timestamp = 0 then false
  else if m.riskScore < 0 || 1 < m.riskScore then false
  else if m.confidenceLevel < 0 || 1 < m.confidenceLevel then false
  else true

/-- Outcome of the external call `ragService.queryFraudPatterns` inside
`analyzeWithRAG`: either a ranked list of past-case summaries, or a thrown
error. -/
inductive RagOutcome where
  | ok (patterns : List String)
  | failure
  deriving DecidableEq, Repr

/-- Embeds `FraudDetectionService.analyzeWithRAG`: the whole body is wrapped in
`try/catch` whose handler only logs, so the function returns normally on
failure; on success it stores an analysis row when at least one pattern was
found.  The return value is the stored `pattern_count`, `none` when nothing
was stored. -/
def analyzeWithRAG (outcome : RagOutcome) : Option ℕ :=
  match outcome with
  | RagOutcome.ok patterns =>
      if 0 < patterns.length then some patterns.length else none
  | RagOutcome.failure => none

/-- Observable outcome of one `processBehavioralMetrics` call. -/
structure TickResult where
  response : Option SecurityResponse
  ragQueried : Bool
  storedAnalysis : Option ℕ
  alertSent : Bool
  deriving DecidableEq, Repr

/-- Embeds `FraudDetectionService.processBehavioralMetrics`.  In source order:
validate (throw on failure), `storeAnonymizedMetrics` (rethrows its storage
errors — modelled by the `storeOk` flag), `determineSecurityResponse`, then
`analyzeWithRAG` exactly when `metrics.riskScore > RISK_THRESHOLDS.MEDIUM`
(strict `>` in the source), then `sendRealTimeAlert` when the response is
non-null (that helper swallows its own errors). -/
def processBehavioralMetrics (now : ℤ) (m : BehavioralMetrics) (storeOk : Bool)
    (rag : RagOutcome) : Except String TickResult :=
  if validateMetrics m = false then
    Except.error "Invalid behavioral metrics received"
  else if storeOk = false then
    Except.error "storeAnonymizedMetrics failed"
  else
    let response := determineSecurityResponse now m
    let ragQueried := decide (RISK_MEDIUM < m.riskScore)
    let storedAnalysis := if ragQueried then analyzeWithRAG rag else none
    Except.ok ⟨response, ragQueried, storedAnalysis, response.isSome⟩

/-- The class `FraudDetectionService` keeps no per-session state (its only fields are
the optional TensorFlow model, unused by `determineSecurityResponse`, and the
constant thresholds), so the responses of the successive ticks of one session
are the pointwise image of the per-tick risk scores. -/
def sessionTickResponses (now : ℤ) (base : BehavioralMetrics) (scores : List ℚ) :
    List (Option SecurityResponse) :=
  scores.map (fun r => determineSecurityResponse now { base with riskScore := r })

/-- The Android-side `SecurityResponse` model as constructed in
`MainActivity.determineSecurityResponse` (no expiry is set there). -/
structure SecurityResponseKt where
  type : ResponseType
  severity : Severity
  message : String
  requiresUserAction : Bool
  deriving DecidableEq, Repr

/-- Embeds `MainActivity.determineSecurityResponse` (Kotlin): a `when` ladder on the
risk score alone; the `metrics` argument is unused by the function body. -/
def determineSecurityResponseKt (riskScore : ℚ) : Option SecurityResponseKt :=
  if 95 / 100 ≤ riskScore then
    some ⟨ResponseType.account_lock, Severity.critical,
      "Critical security threat detected. Account locked.", true⟩
  else if 8 / 10 ≤ riskScore then
    some ⟨ResponseType.session_termination, Severity.high,
      "High risk activity detected. Session terminated.", true⟩
  else if 6 / 10 ≤ riskScore then
    some ⟨ResponseType.otp_challenge, Severity.medium,
      "Additional verification required.", true⟩
  else if 3 / 10 ≤ riskScore then
    some ⟨ResponseType.silent_faceid, Severity.low,
      "Background security check.", false⟩
  else
    none

/-- Companion constant `COLLECTION_INTERVAL_MS` of
`BehavioralBiometricsCollector` (5 seconds). -/
def COLLECTION_INTERVAL_MS : ℤ := 5000

/-- Companion constant `MAX_TOUCH_EVENTS`. -/
def MAX_TOUCH_EVENTS : ℕ := 100

/-- Companion constant `MAX_TYPING_EVENTS`. -/
def MAX_TYPING_EVENTS : ℕ := 50

/-- The sensor-buffer cap: `onSensorChanged` trims the buffer back once
`sensorData.size > 1000` (a literal in the source, not a named constant). -/
def MAX_SENSOR_EVENTS : ℕ := 1000

/-- Android constant `Sensor.TYPE_ACCELEROMETER`. -/
def TYPE_ACCELEROMETER : ℤ := 1

/-- Data class `BehavioralBiometricsCollector.TouchEvent`. -/
structure TouchEvent where
  timestamp : ℤ
  x : ℚ
  y : ℚ
  pressure : ℚ
  size : ℚ
  duration : ℤ
  action : ℤ
  deriving DecidableEq, Repr

/-- Data class `BehavioralBiometricsCollector.TypingEvent`. -/
structure TypingEvent where
  timestamp : ℤ
  keyCode : ℤ
  dwellTime : ℤ
  flightTime : ℤ
  pressure : ℚ
  deriving DecidableEq, Repr

/-- Data class `BehavioralBiometricsCollector.SensorData`.  The source stores
the sensor reading as a `FloatArray`; the accelerometer and gyroscope
readings the collector registers for always carry three axes, kept here as
three named components. -/
structure SensorData where
  timestamp : ℤ
  sensorType : ℤ
  vx : ℚ
  vy : ℚ
  vz : ℚ
  accuracy : ℤ
  deriving DecidableEq, Repr

/-- Data class `BehavioralBiometricsCollector.NavigationEvent`. -/
structure NavigationEvent where
  timestamp : ℤ
  screenName : String
  action : String
  duration : ℤ
  deriving DecidableEq, Repr

/-- The mutable state of one `BehavioralBiometricsCollector`: the
`isCollecting` flag, the consent bit reported by
`privacyManager.hasUserConsent()` at the moment of a call, and the four
synchronized event buffers (list head = oldest entry, appends at the tail,
matching `ArrayList.add` / `removeAt(0)`). -/
structure CollectorState where
  isCollecting : Bool
  hasUserConsent : Bool
  touchEvents : List TouchEvent
  typingEvents : List TypingEvent
  sensorData : List SensorData
  navigationEvents : List NavigationEvent
  deriving DecidableEq, Repr

/-- Embeds `BehavioralBiometricsCollector.onTouchEvent` (the Kotlin function
also returns `false` to the view system; only the state change is modelled):
dropped unless collecting with consent; appends, and once
`MAX_TOUCH_EVENTS` entries are present first removes the entry at index 0. -/
def onTouchEvent (s : CollectorState) (e : TouchEvent) : CollectorState :=
  if !s.isCollecting || !s.hasUserConsent then s
  else if s.touchEvents.length < MAX_TOUCH_EVENTS then
    { s with touchEvents := s.touchEvents ++ [e] }
  else
    { s with touchEvents := s.touchEvents.eraseIdx 0 ++ [e] }

/-- Embeds `BehavioralBiometricsCollector.onTypingEvent`: same shape as the
touch handler with cap `MAX_TYPING_EVENTS`. -/
def onTypingEvent (s : CollectorState) (e : TypingEvent) : CollectorState :=
  if !s.isCollecting || !s.hasUserConsent then s
  else if s.typingEvents.length < MAX_TYPING_EVENTS then
    { s with typingEvents := s.typingEvents ++ [e] }
  else
    { s with typingEvents := s.typingEvents.eraseIdx 0 ++ [e] }

/-- Embeds `BehavioralBiometricsCollector.onNavigationEvent`: dropped unless
collecting with consent; otherwise appends unconditionally — this handler has
no capacity check. -/
def onNavigationEvent (s : CollectorState) (e : NavigationEvent) : CollectorState :=
  if !s.isCollecting || !s.hasUserConsent then s
  else
    { s with navigationEvents := s.navigationEvents ++ [e] }

/-- Embeds `BehavioralBiometricsCollector.onSensorChanged`: dropped when not
collecting or when the event is `null`; otherwise appends and then, if the
buffer now holds more than 1000 samples, removes the entry at index 0.
Unlike the three handlers above, this callback does not consult
`privacyManager.hasUserConsent()`. -/
def onSensorChanged (s : CollectorState) (e : Option SensorData) : CollectorState :=
  match e with
  | none => s
  | some ev =>
      if !s.isCollecting then s
      else
        let grown := s.sensorData ++ [ev]
        if MAX_SENSOR_EVENTS < grown.length then
          { s with sensorData := grown.eraseIdx 0 }
        else
          { s with sensorData := grown }

/-- One ingestion call, as delivered by the UI thread or the sensor
framework. -/
inductive IngestOp where
  | touch (e : TouchEvent)
  | typing (e : TypingEvent)
  | nav (e : NavigationEvent)
  | sensor (e : Option SensorData)
  deriving Repr

/-- Applies one ingestion call to the collector state. -/
def applyOp (s : CollectorState) (op : IngestOp) : CollectorState :=
  match op with
  | IngestOp.touch e => onTouchEvent s e
  | IngestOp.typing e => onTypingEvent s e
  | IngestOp.nav e => onNavigationEvent s e
  | IngestOp.sensor e => onSensorChanged s e

/-- Applies a sequence of ingestion calls in order. -/
def applyOps (s : CollectorState) (ops : List IngestOp) : CollectorState :=
  ops.foldl applyOp s

/-- Embeds `BehavioralBiometricsCollector.clearOldData`: at the end of an
extraction tick every event with `timestamp < now - COLLECTION_INTERVAL_MS * 2`
is removed from every buffer (`removeAll { it.timestamp < cutoffTime }`). -/
def clearOldData (now : ℤ) (s : CollectorState) : CollectorState :=
  let cutoffTime := now - COLLECTION_INTERVAL_MS * 2
  { s with
    touchEvents := s.touchEvents.filter (fun e => !decide (e.timestamp < cutoffTime))
    typingEvents := s.typingEvents.filter (fun e => !decide (e.timestamp < cutoffTime))
    sensorData := s.sensorData.filter (fun e => !decide (e.timestamp < cutoffTime))
    navigationEvents := s.navigationEvents.filter (fun e => !decide (e.timestamp < cutoffTime)) }

/-- Abstraction of the real-valued operations used by the feature helpers
that have no exact rational counterpart: `kotlin.math.sqrt`,
`kotlin.math.ln`, and Java's `String.hashCode`.  Every theorem below holds
for every choice of these functions. -/
structure RealOps where
  sqrtF : ℚ → ℚ
  lnF : ℚ → ℚ
  hashF : String → ℤ

/-- Kotlin's `List<Float>.average()`: sum divided by size. -/
def qmean (l : List ℚ) : ℚ := l.sum / l.length

/-- The collector's private extension `List<Float>.standardDeviation()`:
square root of the mean squared deviation from the mean. -/
def standardDeviation (ops : RealOps) (l : List ℚ) : ℚ :=
  let mean := qmean l
  ops.sqrtF (qmean (l.map (fun v => (v - mean) * (v - mean))))

/-- Kotlin's `zipWithNext(f)`: `f` applied to each adjacent pair. -/
def zipWithNext (f : α → α → β) (l : List α) : List β :=
  (l.zip l.tail).map (fun p => f p.1 p.2)

/-- Kotlin's `Float.toInt()` on a rational: truncation toward zero. -/
def ratTruncToInt (q : ℚ) : ℤ := q.num.tdiv q.den

/-- Embeds `BehavioralBiometricsCollector.calculateEntropy`: histogram over
integer buckets `(value * 10).toInt()`, then `Σ -p · ln p` over the bucket
probabilities. -/
def calculateEntropy (ops : RealOps) (values : List ℚ) : ℚ :=
  if values.isEmpty then 0
  else
    let buckets := values.map (fun v => ratTruncToInt (v * 10))
    let total : ℚ := values.length
    (buckets.dedup.map (fun k =>
      let p : ℚ := ((buckets.filter (fun b => b = k)).length : ℚ) / total
      if 0 < p then -p * ops.lnF p else 0)).sum

/-- Embeds `calculateTypingSpeed`: events per elapsed second between the
first and last buffered keystroke, 0 with fewer than two events or
non-positive elapsed time. -/
def calculateTypingSpeed (events : List TypingEvent) : ℚ :=
  if events.length < 2 then 0
  else
    let totalTime := (events.getLastD ⟨0, 0, 0, 0, 0⟩).timestamp -
      (events.headD ⟨0, 0, 0, 0, 0⟩).timestamp
    if 0 < totalTime then (events.length : ℚ) / ((totalTime : ℚ) / 1000) else 0

/-- Embeds `calculateTypingConsistency`: dwell-time variance over mean, 0 on
an empty list or non-positive mean. -/
def calculateTypingConsistency (events : List TypingEvent) : ℚ :=
  if events.isEmpty then 0
  else
    let dwellTimes := events.map (fun e => (e.dwellTime : ℚ))
    let mean := qmean dwellTimes
    let variance := qmean (dwellTimes.map (fun v => (v - mean) * (v - mean)))
    if 0 < mean then variance / mean else 0

/-- Embeds `calculatePressureVariation`: stdev of keystroke pressures. -/
def calculatePressureVariation (ops : RealOps) (events : List TypingEvent) : ℚ :=
  if events.isEmpty then 0
  else standardDeviation ops (events.map (fun e => e.pressure))

/-- Embeds `calculateRhythmEntropy`: entropy of the inter-keystroke
intervals, 0 with fewer than two events. -/
def calculateRhythmEntropy (ops : RealOps) (events : List TypingEvent) : ℚ :=
  if events.length < 2 then 0
  else calculateEntropy ops
    (zipWithNext (fun a b => ((b.timestamp - a.timestamp : ℤ) : ℚ)) events)

/-- Embeds `calculateTypingAcceleration`: mean absolute delta of the
instantaneous speeds `1000 / interval`, 0 with fewer than three events. -/
def calculateTypingAcceleration (events : List TypingEvent) : ℚ :=
  if events.length < 3 then 0
  else
    let speeds := zipWithNext
      (fun a b => 1000 / ((b.timestamp - a.timestamp : ℤ) : ℚ)) events
    qmean ((zipWithNext (fun a b => b - a) speeds).map (fun v => |v|))

/-- Embeds `calculateTouchVelocity`: mean of the per-step Euclidean
distances divided by the elapsed milliseconds (0 for a non-positive step
time), 0 with fewer than two events. -/
def calculateTouchVelocity (ops : RealOps) (events : List TouchEvent) : ℚ :=
  if events.length < 2 then 0
  else
    qmean (zipWithNext (fun a b =>
      let dx := b.x - a.x
      let dy := b.y - a.y
      let dt : ℚ := ((b.timestamp - a.timestamp : ℤ) : ℚ)
      if 0 < dt then ops.sqrtF (dx * dx + dy * dy) / dt else 0) events)

/-- Embeds `calculateTouchAcceleration`: mean absolute delta of the step
velocities, 0 with fewer than three events. -/
def calculateTouchAcceleration (ops : RealOps) (events : List TouchEvent) : ℚ :=
  if events.length < 3 then 0
  else
    let velocities := zipWithNext (fun a b =>
      let dx := b.x - a.x
      let dy := b.y - a.y
      let dt : ℚ := ((b.timestamp - a.timestamp : ℤ) : ℚ)
      if 0 < dt then ops.sqrtF (dx * dx + dy * dy) / dt else 0) events
    qmean (zipWithNext (fun a b => |b - a|) velocities)

/-- Embeds `calculateTouchPattern`: stdev of the touch pressures. -/
def calculateTouchPattern (ops : RealOps) (events : List TouchEvent) : ℚ :=
  if events.isEmpty then 0
  else standardDeviation ops (events.map (fun e => e.pressure))

/-- Embeds `calculateMovementMagnitude`: mean Euclidean magnitude of the
3-axis samples. -/
def calculateMovementMagnitude (ops : RealOps) (data : List SensorData) : ℚ :=
  if data.isEmpty then 0
  else qmean (data.map (fun d => ops.sqrtF (d.vx * d.vx + d.vy * d.vy + d.vz * d.vz)))

/-- Embeds `calculateOrientationStability`: stdev of the sample
magnitudes. -/
def calculateOrientationStability (ops : RealOps) (data : List SensorData) : ℚ :=
  if data.isEmpty then 0
  else standardDeviation ops
    (data.map (fun d => ops.sqrtF (d.vx * d.vx + d.vy * d.vy + d.vz * d.vz)))

/-- Embeds `calculateNavigationEntropy`: entropy over the hashed screen-name
histogram (`screenName.hashCode().toFloat()`). -/
def calculateNavigationEntropy (ops : RealOps) (events : List NavigationEvent) : ℚ :=
  calculateEntropy ops (events.map (fun e => ((ops.hashF e.screenName : ℤ) : ℚ)))

/-- Embeds `calculateNavigationSpeed`: mean of `1000 / interval_ms` over the
adjacent navigation events, 0 with fewer than two events. -/
def calculateNavigationSpeed (events : List NavigationEvent) : ℚ :=
  if events.length < 2 then 0
  else
    qmean ((zipWithNext (fun a b => (b.timestamp - a.timestamp : ℤ)) events).map
      (fun i => 1000 / (i : ℚ)))

/-- Embeds `BehavioralBiometricsCollector.extractTypingRhythm`: the 10-entry
typing feature vector, or the zero vector of length 10 when the snapshot is
empty. -/
def extractTypingRhythm (ops : RealOps) (events : List TypingEvent) : List ℚ :=
  if events.isEmpty then List.replicate 10 0
  else
    let dwellTimes := events.map (fun e => (e.dwellTime : ℚ))
    let flightTimes := events.map (fun e => (e.flightTime : ℚ))
    [qmean dwellTimes,
     standardDeviation ops dwellTimes,
     qmean flightTimes,
     standardDeviation ops flightTimes,
     (events.length : ℚ),
     calculateTypingSpeed events,
     calculateTypingConsistency events,
     calculatePressureVariation ops events,
     calculateRhythmEntropy ops events,
     calculateTypingAcceleration events]

/-- Embeds `BehavioralBiometricsCollector.extractTouchDynamics`: the
10-entry touch feature vector, or the zero vector of length 10 when the
snapshot is empty. -/
def extractTouchDynamics (ops : RealOps) (events : List TouchEvent) : List ℚ :=
  if events.isEmpty then List.replicate 10 0
  else
    let pressures := events.map (fun e => e.pressure)
    let sizes := events.map (fun e => e.size)
    let durations := events.map (fun e => (e.duration : ℚ))
    [qmean pressures,
     standardDeviation ops pressures,
     qmean sizes,
     standardDeviation ops sizes,
     qmean durations,
     standardDeviation ops durations,
     calculateTouchVelocity ops events,
     calculateTouchAcceleration ops events,
     calculateTouchPattern ops events,
     (events.length : ℚ)]

/-- Embeds `BehavioralBiometricsCollector.extractDeviceOrientation`: the
8-entry orientation vector over the accelerometer samples only, or the zero
vector of length 8 when no accelerometer sample is buffered. -/
def extractDeviceOrientation (ops : RealOps) (sensorData : List SensorData) : List ℚ :=
  let data := sensorData.filter (fun d => d.sensorType = TYPE_ACCELEROMETER)
  if data.isEmpty then List.replicate 8 0
  else
    let xValues := data.map (fun d => d.vx)
    let yValues := data.map (fun d => d.vy)
    let zValues := data.map (fun d => d.vz)
    [qmean xValues,
     standardDeviation ops xValues,
     qmean yValues,
     standardDeviation ops yValues,
     qmean zValues,
     standardDeviation ops zValues,
     calculateMovementMagnitude ops data,
     calculateOrientationStability ops data]

/-- Embeds `BehavioralBiometricsCollector.extractNavigationPattern`: the
6-entry navigation vector, or the zero vector of length 6 when the snapshot
is empty. -/
def extractNavigationPattern (ops : RealOps) (events : List NavigationEvent) : List ℚ :=
  if events.isEmpty then List.replicate 6 0
  else
    let durations := events.map (fun e => (e.duration : ℚ))
    let uniqueScreens := (events.map (fun e => e.screenName)).dedup.length
    [(events.length : ℚ),
     (uniqueScreens : ℚ),
     qmean durations,
     standardDeviation ops durations,
     calculateNavigationEntropy ops events,
     calculateNavigationSpeed events]

/-- The on-device `BehavioralMetrics` payload built by
`processCollectedData` (only the fields the core computes; the privacy
identifiers are opaque strings supplied by `PrivacyManager`). -/
structure KMetrics where
  typingRhythm : List ℚ
  touchDynamics : List ℚ
  deviceOrientation : List ℚ
  navigationPattern : List ℚ
  timestamp : ℤ
  deriving Repr

/-- Embeds the tick body `BehavioralBiometricsCollector.processCollectedData`:
extract the four feature vectors from the current buffers, hand the metrics
to the data callback (the wired callback launches a coroutine and cannot
throw into the tick), then purge old events via `clearOldData`. -/
def processCollectedData (ops : RealOps) (now : ℤ) (s : CollectorState) :
    KMetrics × CollectorState :=
  (⟨extractTypingRhythm ops s.typingEvents,
    extractTouchDynamics ops s.touchEvents,
    extractDeviceOrientation ops s.sensorData,
    extractNavigationPattern ops s.navigationEvents,
    now⟩,
   clearOldData now s)

/-- A metrics record that passes `validateMetrics`, with the given risk
score and anomaly flags; the remaining fields are arbitrary fixed values
used by the concrete instances below. -/
def mkMetrics (riskScore : ℚ) (anomalyFlags : List String) : BehavioralMetrics :=
  ⟨"user-1", "session-1", 1, [], [], [], [], riskScore, anomalyFlags,
    9 / 10, "fp-0011", none, 12, 3⟩

/-- Sample events for concrete instances. -/
def touchSample : TouchEvent := ⟨0, 10, 20, 1 / 2, 1 / 4, 30, 0⟩

def typingSample : TypingEvent := ⟨0, 29, 80, 120, 1 / 2⟩

def navSample : NavigationEvent := ⟨0, "home", "open", 250⟩

def accelSample : SensorData := ⟨0, TYPE_ACCELEROMETER, 1, 2, 3, 3⟩

/-- A concrete `RealOps` instance for witnesses (its values are irrelevant to
every statement using it). -/
def someOps : RealOps := ⟨id, id, fun _ => 0⟩

section ResponseHelpers

theorem dsr_none (now : ℤ) (m : BehavioralMetrics) (h : m.riskScore < RISK_LOW) :
    determineSecurityResponse now m = none := by
  rw [determineSecurityResponse, if_pos h]

theorem dsr_silent (now : ℤ) (m : BehavioralMetrics)
    (h1 : RISK_LOW ≤ m.riskScore) (h2 : m.riskScore < RISK_MEDIUM) :
    determineSecurityResponse now m =
      some ⟨ResponseType.silent_faceid, Severity.low, backgroundCheckMessage, false, none⟩ := by
  have hmc : RISK_MEDIUM < RISK_CRITICAL := by norm_num [RISK_MEDIUM, RISK_CRITICAL]
  have hmh : RISK_MEDIUM < RISK_HIGH := by norm_num [RISK_MEDIUM, RISK_HIGH]
  rw [determineSecurityResponse, if_neg (not_lt.mpr h1),
    if_neg (not_le.mpr (h2.trans hmc)), if_neg (not_le.mpr (h2.trans hmh)),
    if_neg (not_le.mpr h2)]

theorem dsr_medium (now : ℤ) (m : BehavioralMetrics)
    (h1 : RISK_MEDIUM ≤ m.riskScore) (h2 : m.riskScore < RISK_HIGH) :
    determineSecurityResponse now m =
      some ⟨selectAuthenticationMethod m.anomalyFlags, Severity.medium, verificationMessage,
        true, some (now + 5 * 60 * 1000)⟩ := by
  have hlm : RISK_LOW ≤ RISK_MEDIUM := by norm_num [RISK_LOW, RISK_MEDIUM]
  have hhc : RISK_HIGH < RISK_CRITICAL := by norm_num [RISK_HIGH, RISK_CRITICAL]
  rw [determineSecurityResponse, if_neg (not_lt.mpr (hlm.trans h1)),
    if_neg (not_le.mpr (h2.trans hhc)), if_neg (not_le.mpr h2), if_pos h1]

theorem dsr_high (now : ℤ) (m : BehavioralMetrics)
    (h1 : RISK_HIGH ≤ m.riskScore) (h2 : m.riskScore < RISK_CRITICAL) :
    determineSecurityResponse now m =
      some ⟨ResponseType.session_termination, Severity.high, terminationMessage, true, none⟩ := by
  have hlh : RISK_LOW ≤ RISK_HIGH := by norm_num [RISK_LOW, RISK_HIGH]
  rw [determineSecurityResponse, if_neg (not_lt.mpr (hlh.trans h1)),
    if_neg (not_le.mpr h2), if_pos h1]

theorem dsr_critical (now : ℤ) (m : BehavioralMetrics)
    (h1 : RISK_CRITICAL ≤ m.riskScore) :
    determineSecurityResponse now m =
      some ⟨ResponseType.account_lock, Severity.critical, lockMessage, true, none⟩ := by
  have hlc : RISK_LOW ≤ RISK_CRITICAL := by norm_num [RISK_LOW, RISK_CRITICAL]
  rw [determineSecurityResponse, if_neg (not_lt.mpr (hlc.trans h1)), if_pos h1]

theorem selectAuth_device (flags : List String)
    (h : "device_anomaly" ∈ flags ∨ "location_anomaly" ∈ flags) :
    selectAuthenticationMethod flags = ResponseType.silent_faceid := by
  rw [selectAuthenticationMethod]
  rcases h with h | h <;> simp [h]

theorem selectAuth_behavioral (flags : List String)
    (hd : "device_anomaly" ∉ flags)
    (hl : "location_anomaly" ∉ flags)
    (h : "typing_anomaly" ∈ flags ∨ "navigation_anomaly" ∈ flags) :
    selectAuthenticationMethod flags = ResponseType.otp_challenge := by
  rw [selectAuthenticationMethod]
  rcases h with h | h <;> simp [hd, hl, h]

theorem selectAuth_default (flags : List String)
    (hd : "device_anomaly" ∉ flags)
    (hl : "location_anomaly" ∉ flags)
    (ht : "typing_anomaly" ∉ flags)
    (hn : "navigation_anomaly" ∉ flags) :
    selectAuthenticationMethod flags = ResponseType.silent_faceid := by
  rw [selectAuthenticationMethod]
  simp [hd, hl, ht, hn]

end ResponseHelpers

/-- C1: for every extraction tick the response is a function of the risk
score through half-open tiers, boundary values belonging to the higher tier:
`r < 0.3` → no response; `0.3 ≤ r < 0.6` → silent challenge (`silent_faceid`,
severity low, no user action); `0.6 ≤ r < 0.8` → step-up challenge (severity
medium, expiring); `0.8 ≤ r < 0.95` → session termination (severity high,
requires user action); `0.95 ≤ r` → account lock (severity critical, requires
user action).  Stated for the server's `determineSecurityResponse` and, tier
for tier, for the Android mirror `determineSecurityResponseKt`. -/
theorem c1_risk_tier_boundaries (now : ℤ) (m : BehavioralMetrics) :
    (m.riskScore < 3 / 10 → determineSecurityResponse now m = none) ∧
    (3 / 10 ≤ m.riskScore → m.riskScore < 6 / 10 →
      determineSecurityResponse now m =
        some ⟨ResponseType.silent_faceid, Severity.low, backgroundCheckMessage, false, none⟩) ∧
    (6 / 10 ≤ m.riskScore → m.riskScore < 8 / 10 →
      determineSecurityResponse now m =
        some ⟨selectAuthenticationMethod m.anomalyFlags, Severity.medium, verificationMessage,
          true, some (now + 5 * 60 * 1000)⟩) ∧
    (8 / 10 ≤ m.riskScore → m.riskScore < 95 / 100 →
      determineSecurityResponse now m =
        some ⟨ResponseType.session_termination, Severity.high, terminationMessage, true, none⟩) ∧
    (95 / 100 ≤ m.riskScore →
      determineSecurityResponse now m =
        some ⟨ResponseType.account_lock, Severity.critical, lockMessage, true, none⟩) ∧
    (m.riskScore < 3 / 10 → determineSecurityResponseKt m.riskScore = none) ∧
    (3 / 10 ≤ m.riskScore → m.riskScore < 6 / 10 →
      determineSecurityResponseKt m.riskScore =
        some ⟨ResponseType.silent_faceid, Severity.low, "Background security check.", false⟩) ∧
    (6 / 10 ≤ m.riskScore → m.riskScore < 8 / 10 →
      (determineSecurityResponseKt m.riskScore).map
          (fun r => (r.type, r.severity, r.requiresUserAction)) =
        some (ResponseType.otp_challenge, Severity.medium, true)) ∧
    (8 / 10 ≤ m.riskScore → m.riskScore < 95 / 100 →
      determineSecurityResponseKt m.riskScore =
        some ⟨ResponseType.session_termination, Severity.high,
          "High risk activity detected. Session terminated.", true⟩) ∧
    (95 / 100 ≤ m.riskScore →
      determineSecurityResponseKt m.riskScore =
        some ⟨ResponseType.account_lock, Severity.critical,
          "Critical security threat detected. Account locked.", true⟩) := by
  refine ⟨fun h => dsr_none now m h, fun h1 h2 => dsr_silent now m h1 h2,
    fun h1 h2 => dsr_medium now m h1 h2, fun h1 h2 => dsr_high now m h1 h2,
    fun h1 => dsr_critical now m h1, ?_, ?_, ?_, ?_, ?_⟩ <;>
    intro h1 <;> try intro h2
  · rw [determineSecurityResponseKt, if_neg (by intro h; linarith),
      if_neg (by intro h; linarith), if_neg (by intro h; linarith),
      if_neg (by intro h; linarith)]
  · rw [determineSecurityResponseKt, if_neg (by intro h; linarith),
      if_neg (by intro h; linarith), if_neg (by intro h; linarith), if_pos h1]
  · rw [determineSecurityResponseKt, if_neg (by intro h; linarith),
      if_neg (by intro h; linarith), if_pos h1]
    rfl
  · rw [determineSecurityResponseKt, if_neg (by intro h; linarith), if_pos h1]
  · rw [determineSecurityResponseKt, if_pos h1]

/-- Witness for C1 at the four boundary scores the claim names: 0.2999 gives
no response, 0.3 the silent challenge, 0.9499 session termination, 0.95 the
account lock. -/
theorem c1_risk_tier_boundaries_witness :
    ((mkMetrics (2999 / 10000) []).riskScore < 3 / 10 ∧
      determineSecurityResponse 0 (mkMetrics (2999 / 10000) []) = none) ∧
    ((3 : ℚ) / 10 ≤ (mkMetrics (3 / 10) []).riskScore ∧
      (mkMetrics (3 / 10) []).riskScore < 6 / 10 ∧
      determineSecurityResponse 0 (mkMetrics (3 / 10) []) =
        some ⟨ResponseType.silent_faceid, Severity.low, backgroundCheckMessage, false, none⟩) ∧
    ((8 : ℚ) / 10 ≤ (mkMetrics (9499 / 10000) []).riskScore ∧
      (mkMetrics (9499 / 10000) []).riskScore < 95 / 100 ∧
      determineSecurityResponse 0 (mkMetrics (9499 / 10000) []) =
        some ⟨ResponseType.session_termination, Severity.high, terminationMessage, true, none⟩) ∧
    ((95 : ℚ) / 100 ≤ (mkMetrics (95 / 100) []).riskScore ∧
      determineSecurityResponse 0 (mkMetrics (95 / 100) []) =
        some ⟨ResponseType.account_lock, Severity.critical, lockMessage, true, none⟩) :=
  ⟨⟨by norm_num [mkMetrics],
     (c1_risk_tier_boundaries 0 (mkMetrics (2999 / 10000) [])).1 (by norm_num [mkMetrics])⟩,
   ⟨by norm_num [mkMetrics], by norm_num [mkMetrics],
     (c1_risk_tier_boundaries 0 (mkMetrics (3 / 10) [])).2.1
       (by norm_num [mkMetrics]) (by norm_num [mkMetrics])⟩,
   ⟨by norm_num [mkMetrics], by norm_num [mkMetrics],
     (c1_risk_tier_boundaries 0 (mkMetrics (9499 / 10000) [])).2.2.2.1
       (by norm_num [mkMetrics]) (by norm_num [mkMetrics])⟩,
   ⟨by norm_num [mkMetrics],
     (c1_risk_tier_boundaries 0 (mkMetrics (95 / 100) [])).2.2.2.2.1
       (by norm_num [mkMetrics])⟩⟩

/-- C2 counterexample: the response engine keeps no session history — in a
single session (fixed session id) a tick with risk 0.96 produces the
account-lock response, and the very next tick of the same session with risk
0.1 produces no response (`None`), a downgrade after a terminal state.  The
claim asserts this is impossible. -/
theorem c2_counterexample :
    (sessionTickResponses 0 (mkMetrics 0 []) [96 / 100, 1 / 10]).map
        (Option.map SecurityResponse.type) =
      [some ResponseType.account_lock, none] := by
  simp only [sessionTickResponses, List.map_cons, List.map_nil]
  rw [dsr_critical 0 _ (by norm_num [mkMetrics, RISK_CRITICAL]),
    dsr_none 0 _ (by norm_num [mkMetrics, RISK_LOW])]
  rfl

/-- C2 (amended): `determineSecurityResponse` is memoryless — each tick's
response depends only on that tick's own risk score and flags, and the
service holds no session state — so after a SessionTerminate or AccountLock
tick, a later tick of the same session with risk below 0.3 produces `None`
(and generally follows the per-tick tier mapping); nothing in the engine
enforces monotonic escalation within a session. -/
theorem c2_amended_memoryless_engine (now : ℤ) (base : BehavioralMetrics) (r₁ r₂ : ℚ) :
    (95 / 100 ≤ r₁ → r₂ < 3 / 10 →
      (sessionTickResponses now base [r₁, r₂]).map (Option.map SecurityResponse.type) =
        [some ResponseType.account_lock, none]) ∧
    (8 / 10 ≤ r₁ → r₁ < 95 / 100 → r₂ < 3 / 10 →
      (sessionTickResponses now base [r₁, r₂]).map (Option.map SecurityResponse.type) =
        [some ResponseType.session_termination, none]) := by
  constructor
  · intro h1 h2
    simp only [sessionTickResponses, List.map_cons, List.map_nil]
    rw [dsr_critical now _ h1, dsr_none now _ h2]
    rfl
  · intro h1 h1b h2
    simp only [sessionTickResponses, List.map_cons, List.map_nil]
    rw [dsr_high now _ h1 h1b, dsr_none now _ h2]
    rfl

/-- Witness for the amended C2 at scores 0.95 and 0.0. -/
theorem c2_amended_memoryless_engine_witness :
    ((95 : ℚ) / 100 ≤ 95 / 100 ∧ (0 : ℚ) < 3 / 10 ∧
      (sessionTickResponses 0 (mkMetrics 0 []) [95 / 100, 0]).map
          (Option.map SecurityResponse.type) =
        [some ResponseType.account_lock, none]) :=
  ⟨by norm_num, by norm_num,
    (c2_amended_memoryless_engine 0 (mkMetrics 0 []) (95 / 100) 0).1
      (by norm_num) (by norm_num)⟩

/-- C5: whenever `0.6 ≤ r < 0.8` the server issues the step-up challenge:
severity medium, expiry = tick time + 5 minutes (300000 ms), and the
authentication method is chosen from the anomaly tag set exactly as the
claim states — the biometric-style `silent_faceid` when `device_anomaly` or
`location_anomaly` is present, else the OTP challenge when `typing_anomaly`
or `navigation_anomaly` is present, else `silent_faceid` by default. -/
theorem c5_stepup_method_selection (now : ℤ) (m : BehavioralMetrics)
    (h1 : 6 / 10 ≤ m.riskScore) (h2 : m.riskScore < 8 / 10) :
    determineSecurityResponse now m =
      some ⟨selectAuthenticationMethod m.anomalyFlags, Severity.medium, verificationMessage,
        true, some (now + 5 * 60 * 1000)⟩ ∧
    (("device_anomaly" ∈ m.anomalyFlags ∨ "location_anomaly" ∈ m.anomalyFlags) →
      selectAuthenticationMethod m.anomalyFlags = ResponseType.silent_faceid) ∧
    ("device_anomaly" ∉ m.anomalyFlags → "location_anomaly" ∉ m.anomalyFlags →
      ("typing_anomaly" ∈ m.anomalyFlags ∨ "navigation_anomaly" ∈ m.anomalyFlags) →
      selectAuthenticationMethod m.anomalyFlags = ResponseType.otp_challenge) ∧
    ("device_anomaly" ∉ m.anomalyFlags → "location_anomaly" ∉ m.anomalyFlags →
      "typing_anomaly" ∉ m.anomalyFlags → "navigation_anomaly" ∉ m.anomalyFlags →
      selectAuthenticationMethod m.anomalyFlags = ResponseType.silent_faceid) :=
  ⟨dsr_medium now m h1 h2,
   fun h => selectAuth_device m.anomalyFlags h,
   fun hd hl h => selectAuth_behavioral m.anomalyFlags hd hl h,
   fun hd hl ht hn => selectAuth_default m.anomalyFlags hd hl ht hn⟩

/-- Witness for C5 at risk 0.7 with tag set {typing_anomaly}. -/
theorem c5_stepup_method_selection_witness :
    ((6 : ℚ) / 10 ≤ (mkMetrics (7 / 10) ["typing_anomaly"]).riskScore ∧
      (mkMetrics (7 / 10) ["typing_anomaly"]).riskScore < 8 / 10) ∧
    (determineSecurityResponse 0 (mkMetrics (7 / 10) ["typing_anomaly"]) =
      some ⟨selectAuthenticationMethod (mkMetrics (7 / 10) ["typing_anomaly"]).anomalyFlags,
        Severity.medium, verificationMessage, true, some (0 + 5 * 60 * 1000)⟩) :=
  ⟨⟨by norm_num [mkMetrics], by norm_num [mkMetrics]⟩,
   (c5_stepup_method_selection 0 (mkMetrics (7 / 10) ["typing_anomaly"])
     (by norm_num [mkMetrics]) (by norm_num [mkMetrics])).1⟩

/-- C6 counterexample: at risk score 0.82 the score falls in the
`[0.8, 0.95)` tier, so both the server and the Android engine produce the
session-termination response (severity high), not the step-up OTP challenge
of severity medium that the claim asserts. -/
theorem c6_counterexample :
    determineSecurityResponse 0 (mkMetrics (82 / 100) ["typing_anomaly"]) =
      some ⟨ResponseType.session_termination, Severity.high, terminationMessage, true, none⟩ ∧
    (determineSecurityResponse 0 (mkMetrics (82 / 100) ["typing_anomaly"])).map
        SecurityResponse.severity ≠ some Severity.medium ∧
    (determineSecurityResponse 0 (mkMetrics (82 / 100) ["typing_anomaly"])).map
        SecurityResponse.type ≠ some ResponseType.otp_challenge ∧
    (determineSecurityResponseKt (82 / 100)).map SecurityResponseKt.type =
      some ResponseType.session_termination := by
  have h : determineSecurityResponse 0 (mkMetrics (82 / 100) ["typing_anomaly"]) =
      some ⟨ResponseType.session_termination, Severity.high, terminationMessage, true, none⟩ :=
    dsr_high 0 _ (by norm_num [mkMetrics, RISK_HIGH]) (by norm_num [mkMetrics, RISK_CRITICAL])
  refine ⟨h, ?_, ?_, ?_⟩
  · rw [h]; simp
  · rw [h]; simp
  · rw [determineSecurityResponseKt, if_neg (by norm_num), if_pos (by norm_num)]
    rfl

/-- C6 (amended): a tick with risk score 0.82 yields the session-termination
response (severity high, requires user action); the step-up OTP scenario the
claim describes holds for a score inside `[0.6, 0.8)` — e.g. 0.72 — with tag
set {typing_anomaly}: OTP method, severity medium, expiry = tick time +
300000 ms. -/
theorem c6_amended_scenario (now : ℤ) (m m' : BehavioralMetrics)
    (h82 : m.riskScore = 82 / 100)
    (h72 : m'.riskScore = 72 / 100) (hf : m'.anomalyFlags = ["typing_anomaly"]) :
    determineSecurityResponse now m =
      some ⟨ResponseType.session_termination, Severity.high, terminationMessage, true, none⟩ ∧
    determineSecurityResponse now m' =
      some ⟨ResponseType.otp_challenge, Severity.medium, verificationMessage, true,
        some (now + 5 * 60 * 1000)⟩ := by
  constructor
  · exact dsr_high now m (by rw [h82]; norm_num [RISK_HIGH])
      (by rw [h82]; norm_num [RISK_CRITICAL])
  · rw [dsr_medium now m' (by rw [h72]; norm_num [RISK_MEDIUM])
      (by rw [h72]; norm_num [RISK_HIGH]),
      selectAuth_behavioral m'.anomalyFlags (by rw [hf]; simp) (by rw [hf]; simp)
        (Or.inl (by rw [hf]; simp))]

/-- Witness for the amended C6 at concrete metrics with scores 0.82 and
0.72. -/
theorem c6_amended_scenario_witness :
    ((mkMetrics (82 / 100) ["typing_anomaly"]).riskScore = 82 / 100 ∧
      (mkMetrics (72 / 100) ["typing_anomaly"]).riskScore = 72 / 100 ∧
      (mkMetrics (72 / 100) ["typing_anomaly"]).anomalyFlags = ["typing_anomaly"]) ∧
    determineSecurityResponse 0 (mkMetrics (72 / 100) ["typing_anomaly"]) =
      some ⟨ResponseType.otp_challenge, Severity.medium, verificationMessage, true,
        some (0 + 5 * 60 * 1000)⟩ :=
  ⟨⟨rfl, rfl, rfl⟩,
   (c6_amended_scenario 0 (mkMetrics (82 / 100) ["typing_anomaly"])
     (mkMetrics (72 / 100) ["typing_anomaly"]) rfl rfl rfl).2⟩

/-- C10: the security response is a deterministic function of the risk score
and the anomaly flag set alone — two metrics records agreeing on `riskScore`
and `anomalyFlags` receive responses with the same type, severity, message
and `requiresUserAction` flag, whatever their feature vectors, confidence
level, device fingerprint, time of day, day of week, or even the tick
clock. -/
theorem c10_response_function_of_score_and_flags (now₁ now₂ : ℤ)
    (m₁ m₂ : BehavioralMetrics) (hr : m₁.riskScore = m₂.riskScore)
    (hf : m₁.anomalyFlags = m₂.anomalyFlags) :
    (determineSecurityResponse now₁ m₁).map
        (fun r => (r.type, r.severity, r.message, r.requiresUserAction)) =
      (determineSecurityResponse now₂ m₂).map
        (fun r => (r.type, r.severity, r.message, r.requiresUserAction)) := by
  rw [determineSecurityResponse, determineSecurityResponse, hr, hf]
  split_ifs <;> rfl

/-- Witness for C10: two records sharing score 0.65 and tag set
{device_anomaly} but differing in every other varying field. -/
theorem c10_response_function_of_score_and_flags_witness :
    ((mkMetrics (65 / 100) ["device_anomaly"]).riskScore =
        (BehavioralMetrics.mk "user-2" "session-2" 77 [1] [2] [3] [4] (65 / 100)
          ["device_anomaly"] (1 / 10) "fp-9999" (some "loc") 3 6).riskScore ∧
      (mkMetrics (65 / 100) ["device_anomaly"]).anomalyFlags =
        (BehavioralMetrics.mk "user-2" "session-2" 77 [1] [2] [3] [4] (65 / 100)
          ["device_anomaly"] (1 / 10) "fp-9999" (some "loc") 3 6).anomalyFlags) ∧
    (determineSecurityResponse 5 (mkMetrics (65 / 100) ["device_anomaly"])).map
        (fun r => (r.type, r.severity, r.message, r.requiresUserAction)) =
      (determineSecurityResponse 99
          (BehavioralMetrics.mk "user-2" "session-2" 77 [1] [2] [3] [4] (65 / 100)
            ["device_anomaly"] (1 / 10) "fp-9999" (some "loc") 3 6)).map
        (fun r => (r.type, r.severity, r.message, r.requiresUserAction)) :=
  ⟨⟨rfl, rfl⟩,
   c10_response_function_of_score_and_flags 5 99 (mkMetrics (65 / 100) ["device_anomaly"])
     (BehavioralMetrics.mk "user-2" "session-2" 77 [1] [2] [3] [4] (65 / 100)
       ["device_anomaly"] (1 / 10) "fp-9999" (some "loc") 3 6) rfl rfl⟩

section BufferHelpers

theorem eraseIdx_zero_eq_tail (l : List α) : l.eraseIdx 0 = l.tail := by
  cases l <;> rfl

theorem tail_append_single (l : List α) (x : α) (h : l ≠ []) :
    (l ++ [x]).tail = l.tail ++ [x] := by
  cases l with
  | nil => exact absurd rfl h
  | cons a t => rfl

/-- The three capacity bounds the collector's handlers maintain (the
navigation buffer has none). -/
def buffersWithinCaps (s : CollectorState) : Prop :=
  s.touchEvents.length ≤ MAX_TOUCH_EVENTS ∧
  s.typingEvents.length ≤ MAX_TYPING_EVENTS ∧
  s.sensorData.length ≤ MAX_SENSOR_EVENTS

instance : DecidablePred buffersWithinCaps := fun s => by
  rw [buffersWithinCaps]; infer_instance

theorem applyOp_caps (s : CollectorState) (op : IngestOp) (h : buffersWithinCaps s) :
    buffersWithinCaps (applyOp s op) := by
  obtain ⟨h1, h2, h3⟩ := h
  rw [MAX_TOUCH_EVENTS] at h1
  rw [MAX_TYPING_EVENTS] at h2
  rw [MAX_SENSOR_EVENTS] at h3
  cases op with
  | touch e =>
      show buffersWithinCaps (onTouchEvent s e)
      rw [onTouchEvent]
      split_ifs with hg hlen
      · exact ⟨h1, h2, h3⟩
      · rw [MAX_TOUCH_EVENTS] at hlen
        refine ⟨?_, h2, h3⟩
        simp only [List.length_append, List.length_singleton, MAX_TOUCH_EVENTS]
        omega
      · rw [MAX_TOUCH_EVENTS] at hlen
        refine ⟨?_, h2, h3⟩
        rw [eraseIdx_zero_eq_tail]
        simp only [List.length_append, List.length_tail, List.length_singleton,
          MAX_TOUCH_EVENTS]
        omega
  | typing e =>
      show buffersWithinCaps (onTypingEvent s e)
      rw [onTypingEvent]
      split_ifs with hg hlen
      · exact ⟨h1, h2, h3⟩
      · rw [MAX_TYPING_EVENTS] at hlen
        refine ⟨h1, ?_, h3⟩
        simp only [List.length_append, List.length_singleton, MAX_TYPING_EVENTS]
        omega
      · rw [MAX_TYPING_EVENTS] at hlen
        refine ⟨h1, ?_, h3⟩
        rw [eraseIdx_zero_eq_tail]
        simp only [List.length_append, List.length_tail, List.length_singleton,
          MAX_TYPING_EVENTS]
        omega
  | nav e =>
      show buffersWithinCaps (onNavigationEvent s e)
      rw [onNavigationEvent]
      split_ifs with hg
      · exact ⟨h1, h2, h3⟩
      · exact ⟨h1, h2, h3⟩
  | sensor e =>
      show buffersWithinCaps (onSensorChanged s e)
      cases e with
      | none => exact ⟨h1, h2, h3⟩
      | some ev =>
          simp only [onSensorChanged]
          split_ifs with hg hlen
          · exact ⟨h1, h2, h3⟩
          · rw [MAX_SENSOR_EVENTS] at hlen
            refine ⟨h1, h2, ?_⟩
            rw [eraseIdx_zero_eq_tail]
            simp only [List.length_tail, List.length_append, List.length_singleton,
              MAX_SENSOR_EVENTS]
            omega
          · rw [MAX_SENSOR_EVENTS] at hlen
            refine ⟨h1, h2, ?_⟩
            simp only [List.length_append, List.length_singleton] at hlen ⊢
            rw [MAX_SENSOR_EVENTS]
            omega

theorem applyOps_caps (ops : List IngestOp) : ∀ (s : CollectorState),
    buffersWithinCaps s → buffersWithinCaps (applyOps s ops) := by
  induction ops with
  | nil => exact fun s h => h
  | cons op ops ih => exact fun s h => ih (applyOp s op) (applyOp_caps s op h)

theorem applyOps_nav_length (e : NavigationEvent) (n : ℕ) : ∀ (s : CollectorState),
    s.isCollecting = true → s.hasUserConsent = true →
    (applyOps s (List.replicate n (IngestOp.nav e))).navigationEvents.length =
      s.navigationEvents.length + n := by
  induction n with
  | zero => intro s _ _; rfl
  | succ n ih =>
      intro s hc hu
      rw [List.replicate_succ]
      show (applyOps (applyOp s (IngestOp.nav e))
        (List.replicate n (IngestOp.nav e))).navigationEvents.length = _
      have hstep : applyOp s (IngestOp.nav e) =
          { s with navigationEvents := s.navigationEvents ++ [e] } := by
        show onNavigationEvent s e = _
        rw [onNavigationEvent]
        simp [hc, hu]
      rw [hstep, ih { s with navigationEvents := s.navigationEvents ++ [e] } hc hu]
      simp only [List.length_append, List.length_singleton]
      omega

end BufferHelpers

/-- A collector state in active collection with consent whose touch, typing
and sensor buffers are exactly at their caps. -/
def fullState : CollectorState :=
  ⟨true, true, List.replicate 100 touchSample, List.replicate 50 typingSample,
    List.replicate 1000 accelSample, []⟩

/-- An empty collector state in active collection with consent. -/
def activeState : CollectorState := ⟨true, true, [], [], [], []⟩

/-- C3 counterexample: the navigation buffer has no capacity check — 1001
navigation pushes into an empty collecting-with-consent state leave 1001
buffered events, beyond even the largest configured cap in the collector
(the 1000 motion samples), so the navigation buffer violates the claimed
`len ≤ capacity` invariant and never evicts. -/
theorem c3_counterexample :
    MAX_SENSOR_EVENTS <
      (applyOps activeState
        (List.replicate 1001 (IngestOp.nav navSample))).navigationEvents.length := by
  rw [applyOps_nav_length navSample 1001 activeState rfl rfl]
  decide

/-- C3 (amended): the touch, keystroke and motion buffers never exceed their
caps (100, 50 and 1000) under any sequence of ingestion calls, and an
insertion into one of them at capacity removes exactly the oldest entry and
appends the new one (strict FIFO); the navigation buffer is excluded: an
accepted navigation push always appends and evicts nothing. -/
theorem c3_amended_buffer_bounds :
    (∀ (s : CollectorState) (ops : List IngestOp), buffersWithinCaps s →
      buffersWithinCaps (applyOps s ops)) ∧
    (∀ (s : CollectorState) (e : TouchEvent), s.isCollecting = true →
      s.hasUserConsent = true → s.touchEvents.length = MAX_TOUCH_EVENTS →
      (onTouchEvent s e).touchEvents = s.touchEvents.tail ++ [e]) ∧
    (∀ (s : CollectorState) (e : TypingEvent), s.isCollecting = true →
      s.hasUserConsent = true → s.typingEvents.length = MAX_TYPING_EVENTS →
      (onTypingEvent s e).typingEvents = s.typingEvents.tail ++ [e]) ∧
    (∀ (s : CollectorState) (e : SensorData), s.isCollecting = true →
      s.sensorData.length = MAX_SENSOR_EVENTS →
      (onSensorChanged s (some e)).sensorData = s.sensorData.tail ++ [e]) ∧
    (∀ (s : CollectorState) (e : NavigationEvent), s.isCollecting = true →
      s.hasUserConsent = true →
      (onNavigationEvent s e).navigationEvents = s.navigationEvents ++ [e]) := by
  refine ⟨fun s ops h => applyOps_caps ops s h, ?_, ?_, ?_, ?_⟩
  · intro s e hc hu hlen
    rw [onTouchEvent]
    simp only [hc, hu, Bool.not_true, Bool.or_self, Bool.false_eq_true, if_false, hlen]
    rw [if_neg (lt_irrefl MAX_TOUCH_EVENTS), eraseIdx_zero_eq_tail]
  · intro s e hc hu hlen
    rw [onTypingEvent]
    simp only [hc, hu, Bool.not_true, Bool.or_self, Bool.false_eq_true, if_false, hlen]
    rw [if_neg (lt_irrefl MAX_TYPING_EVENTS), eraseIdx_zero_eq_tail]
  · intro s e hc hlen
    rw [onSensorChanged]
    simp only [hc, Bool.not_true, Bool.false_eq_true, if_false]
    rw [if_pos (by simp only [List.length_append, List.length_singleton, hlen]; omega),
      eraseIdx_zero_eq_tail,
      tail_append_single s.sensorData e (by intro hnil; rw [hnil] at hlen; exact absurd hlen (by decide))]
  · intro s e hc hu
    rw [onNavigationEvent]
    simp [hc, hu]

theorem fullState_touch_len : fullState.touchEvents.length = MAX_TOUCH_EVENTS := by
  show (List.replicate 100 touchSample).length = 100
  rw [List.length_replicate]

theorem fullState_typing_len : fullState.typingEvents.length = MAX_TYPING_EVENTS := by
  show (List.replicate 50 typingSample).length = 50
  rw [List.length_replicate]

theorem fullState_sensor_len : fullState.sensorData.length = MAX_SENSOR_EVENTS := by
  show (List.replicate 1000 accelSample).length = 1000
  rw [List.length_replicate]

theorem fullState_caps : buffersWithinCaps fullState :=
  ⟨le_of_eq fullState_touch_len, le_of_eq fullState_typing_len,
    le_of_eq fullState_sensor_len⟩

/-- Witness for the amended C3: the bounds hold after pushes of every kind
on a state at full capacity, and the at-capacity FIFO and navigation-append
equations hold there concretely. -/
theorem c3_amended_buffer_bounds_witness :
    (buffersWithinCaps fullState ∧
      buffersWithinCaps (applyOps fullState
        [IngestOp.touch touchSample, IngestOp.typing typingSample,
         IngestOp.sensor (some accelSample), IngestOp.nav navSample])) ∧
    (fullState.touchEvents.length = MAX_TOUCH_EVENTS ∧
      (onTouchEvent fullState touchSample).touchEvents =
        fullState.touchEvents.tail ++ [touchSample]) ∧
    (fullState.typingEvents.length = MAX_TYPING_EVENTS ∧
      (onTypingEvent fullState typingSample).typingEvents =
        fullState.typingEvents.tail ++ [typingSample]) ∧
    (fullState.sensorData.length = MAX_SENSOR_EVENTS ∧
      (onSensorChanged fullState (some accelSample)).sensorData =
        fullState.sensorData.tail ++ [accelSample]) ∧
    (onNavigationEvent fullState navSample).navigationEvents =
      fullState.navigationEvents ++ [navSample] :=
  ⟨⟨fullState_caps,
    c3_amended_buffer_bounds.1 fullState
      [IngestOp.touch touchSample, IngestOp.typing typingSample,
       IngestOp.sensor (some accelSample), IngestOp.nav navSample] fullState_caps⟩,
   ⟨fullState_touch_len,
    c3_amended_buffer_bounds.2.1 fullState touchSample rfl rfl fullState_touch_len⟩,
   ⟨fullState_typing_len,
    c3_amended_buffer_bounds.2.2.1 fullState typingSample rfl rfl fullState_typing_len⟩,
   ⟨fullState_sensor_len,
    c3_amended_buffer_bounds.2.2.2.1 fullState accelSample rfl fullState_sensor_len⟩,
   c3_amended_buffer_bounds.2.2.2.2 fullState navSample rfl rfl⟩

/-- C4: every category's feature extractor maps the empty snapshot to the
all-zero vector of its documented length (10 for typing, 10 for touch, 8
for device orientation, 6 for navigation) and, being a total function,
returns a vector of exactly that length on every snapshot — for every
interpretation of the square-root, logarithm and hash operations. -/
theorem c4_empty_snapshot_zero_vectors (ops : RealOps) (tys : List TypingEvent)
    (tos : List TouchEvent) (sds : List SensorData) (navs : List NavigationEvent) :
    extractTypingRhythm ops [] = List.replicate 10 0 ∧
    extractTouchDynamics ops [] = List.replicate 10 0 ∧
    extractDeviceOrientation ops [] = List.replicate 8 0 ∧
    extractNavigationPattern ops [] = List.replicate 6 0 ∧
    (extractTypingRhythm ops tys).length = 10 ∧
    (extractTouchDynamics ops tos).length = 10 ∧
    (extractDeviceOrientation ops sds).length = 8 ∧
    (extractNavigationPattern ops navs).length = 6 := by
  refine ⟨rfl, rfl, rfl, rfl, ?_, ?_, ?_, ?_⟩
  · rw [extractTypingRhythm]; split <;> simp
  · rw [extractTouchDynamics]; split <;> simp
  · rw [extractDeviceOrientation]; split <;> simp
  · rw [extractNavigationPattern]; split <;> simp

/-- C7: after the end of an extraction tick, no event with a timestamp more
than `2 × COLLECTION_INTERVAL_MS` (2 × 5000 ms) before the current time
remains in any of the four signal buffers: `processCollectedData` always
finishes with the `clearOldData` purge, which removes every event with
`timestamp < now - COLLECTION_INTERVAL_MS * 2`. -/
theorem c7_retention_bound (ops : RealOps) (now : ℤ) (s : CollectorState) :
    (∀ e ∈ ((processCollectedData ops now s).2).touchEvents,
      ¬ e.timestamp < now - COLLECTION_INTERVAL_MS * 2) ∧
    (∀ e ∈ ((processCollectedData ops now s).2).typingEvents,
      ¬ e.timestamp < now - COLLECTION_INTERVAL_MS * 2) ∧
    (∀ e ∈ ((processCollectedData ops now s).2).sensorData,
      ¬ e.timestamp < now - COLLECTION_INTERVAL_MS * 2) ∧
    (∀ e ∈ ((processCollectedData ops now s).2).navigationEvents,
      ¬ e.timestamp < now - COLLECTION_INTERVAL_MS * 2) := by
  refine ⟨?_, ?_, ?_, ?_⟩ <;>
  · intro e he
    simp only [processCollectedData, clearOldData, List.mem_filter,
      Bool.not_eq_true', decide_eq_false_iff_not] at he
    exact he.2

/-- A one-touch-event state used to witness the retention bound. -/
def tickState : CollectorState := ⟨true, true, [touchSample], [], [], []⟩

/-- Witness for C7: the touch event at timestamp `now` survives the tick and
the bound holds of it. -/
theorem c7_retention_bound_witness :
    touchSample ∈ ((processCollectedData someOps 0 tickState).2).touchEvents ∧
    ¬ touchSample.timestamp < 0 - COLLECTION_INTERVAL_MS * 2 :=
  have hmem : touchSample ∈ ((processCollectedData someOps 0 tickState).2).touchEvents := by
    rw [show ((processCollectedData someOps 0 tickState).2).touchEvents = [touchSample]
      from rfl]
    exact List.mem_singleton.mpr rfl
  ⟨hmem, (c7_retention_bound someOps 0 tickState).1 touchSample hmem⟩

/-- A collecting state whose user consent has been withdrawn mid-session. -/
def consentWithdrawnState : CollectorState := ⟨true, false, [], [], [], []⟩

/-- C8 (code bug): with collection active but consent withdrawn, the touch,
typing and navigation handlers silently drop their events as the claim
states — but `onSensorChanged` checks only `isCollecting`, never
`privacyManager.hasUserConsent()`, so a motion-sensor callback in that state
appends its sample to the sensor buffer instead of being dropped. -/
theorem c8_sensor_consent_bug :
    onTouchEvent consentWithdrawnState touchSample = consentWithdrawnState ∧
    onTypingEvent consentWithdrawnState typingSample = consentWithdrawnState ∧
    onNavigationEvent consentWithdrawnState navSample = consentWithdrawnState ∧
    (onSensorChanged consentWithdrawnState (some accelSample)).sensorData = [accelSample] ∧
    onSensorChanged consentWithdrawnState (some accelSample) ≠ consentWithdrawnState := by
  refine ⟨rfl, rfl, rfl, rfl, ?_⟩
  intro h
  have h4 : (onSensorChanged consentWithdrawnState (some accelSample)).sensorData =
      [accelSample] := rfl
  rw [h] at h4
  exact List.cons_ne_nil accelSample [] h4.symm

/-- Observable rag-query bit of a `processBehavioralMetrics` outcome
(`none` when the call threw). -/
def ragQueriedOf (r : Except String TickResult) : Option Bool :=
  match r with
  | Except.ok t => some t.ragQueried
  | Except.error _ => none

/-- Observable security response of a `processBehavioralMetrics` outcome
(`none` when the call threw). -/
def responseOf (r : Except String TickResult) : Option (Option SecurityResponse) :=
  match r with
  | Except.ok t => some t.response
  | Except.error _ => none

theorem validateMetrics_mk (r : ℚ) (flags : List String) (h0 : 0 ≤ r) (h1 : r ≤ 1) :
    validateMetrics (mkMetrics r flags) = true := by
  have hrisk : ¬((decide ((mkMetrics r flags).riskScore < 0) ||
      decide (1 < (mkMetrics r flags).riskScore)) = true) := by
    simp only [mkMetrics, Bool.or_eq_true, decide_eq_true_eq, not_or, not_lt]
    exact ⟨h0, h1⟩
  rw [validateMetrics, if_neg (by simp [mkMetrics]), if_neg hrisk,
    if_neg (by norm_num [mkMetrics])]

/-- C9 counterexample: a tick with risk score exactly 0.6 does not query the
historical-pattern service — the source gates the query on
`riskScore > RISK_THRESHOLDS.MEDIUM`, a strict inequality — refuting the
claimed "if and only if the risk score is at least 0.6". -/
theorem c9_counterexample :
    (6 : ℚ) / 10 ≤ (mkMetrics (6 / 10) []).riskScore ∧
    ragQueriedOf (processBehavioralMetrics 0 (mkMetrics (6 / 10) []) true
      (RagOutcome.ok ["case"])) = some false := by
  constructor
  · norm_num [mkMetrics]
  · have hv : validateMetrics (mkMetrics (6 / 10) []) = true :=
      validateMetrics_mk (6 / 10) [] (by norm_num) (by norm_num)
    rw [processBehavioralMetrics, if_neg (by rw [hv]; simp), if_neg (by simp)]
    rw [ragQueriedOf]
    norm_num [RISK_MEDIUM, mkMetrics]

/-- C9 (amended): the historical-pattern query happens if and only if the
tick's risk score is strictly greater than 0.6, and a failure of that query
is swallowed inside `analyzeWithRAG` — the call still returns normally with
the same security response as on success, so dispatch is never prevented. -/
theorem c9_amended_rag_gate (now : ℤ) (m : BehavioralMetrics) (rag : RagOutcome)
    (h : validateMetrics m = true) :
    processBehavioralMetrics now m true rag =
      Except.ok ⟨determineSecurityResponse now m, decide (RISK_MEDIUM < m.riskScore),
        if decide (RISK_MEDIUM < m.riskScore) then analyzeWithRAG rag else none,
        (determineSecurityResponse now m).isSome⟩ ∧
    responseOf (processBehavioralMetrics now m true rag) =
      responseOf (processBehavioralMetrics now m true RagOutcome.failure) ∧
    (ragQueriedOf (processBehavioralMetrics now m true rag) = some true ↔
      6 / 10 < m.riskScore) := by
  have hpbm : ∀ (o : RagOutcome), processBehavioralMetrics now m true o =
      Except.ok ⟨determineSecurityResponse now m, decide (RISK_MEDIUM < m.riskScore),
        if decide (RISK_MEDIUM < m.riskScore) then analyzeWithRAG o else none,
        (determineSecurityResponse now m).isSome⟩ := by
    intro o
    rw [processBehavioralMetrics, if_neg (by rw [h]; simp), if_neg (by simp)]
  refine ⟨hpbm rag, ?_, ?_⟩
  · rw [hpbm rag, hpbm RagOutcome.failure]
    rfl
  · rw [hpbm rag, ragQueriedOf]
    simp [RISK_MEDIUM]

/-- Witness for the amended C9 at risk score 0.61: the metrics validate and
the rag query fires, even when the external service fails. -/
theorem c9_amended_rag_gate_witness :
    validateMetrics (mkMetrics (61 / 100) []) = true ∧
    ragQueriedOf (processBehavioralMetrics 0 (mkMetrics (61 / 100) []) true
      RagOutcome.failure) = some true :=
  ⟨validateMetrics_mk (61 / 100) [] (by norm_num) (by norm_num),
   ((c9_amended_rag_gate 0 (mkMetrics (61 / 100) []) RagOutcome.failure
      (validateMetrics_mk (61 / 100) [] (by norm_num) (by norm_num))).2.2).mpr
     (by norm_num [mkMetrics])⟩

end BankGuard
